import Mathlib

set_option linter.unusedVariables false

/-!
Verification development for the seafile client library (src/seafileapi/repo.py).

The Python module is shallowly embedded: every operation of the `Repo` class
becomes a Lean function from the repository record, a transport-collaborator
oracle and the Python-level arguments to a pair of an `Except`-style outcome
(normal return or raised Python exception) and the list of HTTP requests the
operation issued, in order.  Decoded JSON is embedded as the inductive
`JValue`; Python exceptions as the inductive `PyError`.
-/

/-- Decoded JSON values, as handed to the component by the (out-of-scope)
JSON-parsing collaborator: null, booleans, integers, strings, arrays and
objects (objects behave as Python dicts whose keys are unique, so lookup of
the first matching key is lookup of the key). -/
inductive JValue where
  | jnull : JValue
  | jbool (b : Bool) : JValue
  | jint (n : Int) : JValue
  | jstr (s : String) : JValue
  | jarr (xs : List JValue) : JValue
  | jobj (fields : List (String × JValue)) : JValue

/-- Python exceptions that the embedded code can raise. -/
inductive PyError where
  | assertionError : PyError
  | keyError (key : String) : PyError
  | valueError (msg : String) : PyError
  | typeError : PyError
  | attributeError (attr : String) : PyError
  | indexError : PyError
  | doesNotExist (msg : String) : PyError
  | clientHttpError (code : Nat) : PyError
deriving DecidableEq

/-- Modelled from the spec: the error-taxonomy entry `InvalidArgument` —
"caller-supplied path does not start with `/`, or share-link string is
malformed".  In the code these surface as the `assert` statement's
`AssertionError` and as `ValueError` respectively. -/
def PyError.isInvalidArgument : PyError → Bool
  | .assertionError => true
  | .valueError _ => true
  | _ => false

/-- Modelled from the spec: the error-taxonomy entry `NotFound` — "service
reports the target file/dir does not exist".  In the code this is the
`DoesNotExist` exception raised by the `raise_does_not_exist` decorator. -/
def PyError.isNotFound : PyError → Bool
  | .doesNotExist _ => true
  | _ => false

/-- Modelled from the spec: the error-taxonomy entry `MalformedResponse` —
"required JSON/header fields absent from an otherwise successful response".
In the code this is the `KeyError` of a dict subscript on a missing key. -/
def PyError.isMalformedResponse : PyError → Bool
  | .keyError _ => true
  | _ => false

/-- Python dict subscript `j[k]` on a decoded-JSON value: the field value if
present, `KeyError` if the key is missing, `TypeError` when the value is not
an object (string keys cannot subscript lists or scalars). -/
def JValue.getItem : JValue → String → Except PyError JValue
  | .jobj fields, k =>
    match List.lookup k fields with
    | some v => .ok v
    | none => .error (.keyError k)
  | _, _ => .error (.typeError)

/-- Python `j.get(k)` on a decoded-JSON value: `None` when the key is
missing, `AttributeError` when the value is not a dict (only dicts have a
`get` method). -/
def JValue.dictGet : JValue → String → Except PyError JValue
  | .jobj fields, k => .ok ((List.lookup k fields).getD .jnull)
  | _, _ => .error (.attributeError "get")

/-- Python list subscript `j[i]` for a nonnegative index: `IndexError` when
out of range, `TypeError` when the value is not a list (a dict would raise
`KeyError`, but the code only subscripts an expected list). -/
def JValue.getIdx : JValue → Nat → Except PyError JValue
  | .jarr xs, i =>
    match xs.get? i with
    | some v => .ok v
    | none => .error (.indexError)
  | _, _ => .error (.typeError)

/-- Python truthiness of a decoded-JSON value, as tested by
`if share_link_details.get('is_dir')`. -/
def JValue.truthy : JValue → Bool
  | .jnull => false
  | .jbool b => b
  | .jint n => n != 0
  | .jstr s => s ≠ ""
  | .jarr xs => ¬ xs.isEmpty
  | .jobj fields => ¬ fields.isEmpty

/-- A single-quote character, kept out of string literals. -/
def squote : String := String.singleton (Char.ofNat 39)

mutual

/-- Python repr() of a decoded-JSON value, used by str() on containers.
Strings render between single quotes (repr escape sequences for quotes and
control characters are not reproduced; no operation of this module renders a
container or a quoted string into a URL, so these cases are never reached by
the claims). -/
def JValue.pyRepr : JValue → String
  | .jnull => "None"
  | .jbool true => "True"
  | .jbool false => "False"
  | .jint n => toString n
  | .jstr s => squote ++ s ++ squote
  | .jarr xs => "[" ++ JValue.pyReprSeq xs ++ "]"
  | .jobj fields => "\x7b" ++ JValue.pyReprFields fields ++ "\x7d"

/-- Comma-separated reprs of the elements of a Python list. -/
def JValue.pyReprSeq : List JValue → String
  | [] => ""
  | [x] => JValue.pyRepr x
  | x :: xs => JValue.pyRepr x ++ ", " ++ JValue.pyReprSeq xs

/-- Comma-separated `key: value` reprs of the items of a Python dict. -/
def JValue.pyReprFields : List (String × JValue) → String
  | [] => ""
  | [(k, v)] => squote ++ k ++ squote ++ ": " ++ JValue.pyRepr v
  | (k, v) :: fields =>
    squote ++ k ++ squote ++ ": " ++ JValue.pyRepr v ++ ", " ++ JValue.pyReprFields fields

end

/-- Python str() of a decoded-JSON value, as applied by `'%s' % self.id` and
by f-string interpolation: a string renders as itself, scalars as their
Python text, containers via repr. -/
def JValue.pyStr : JValue → String
  | .jnull => "None"
  | .jbool true => "True"
  | .jbool false => "False"
  | .jint n => toString n
  | .jstr s => s
  | .jarr xs => "[" ++ JValue.pyReprSeq xs ++ "]"
  | .jobj fields => "\x7b" ++ JValue.pyReprFields fields ++ "\x7d"

@[simp] theorem JValue.pyStr_jstr (s : String) : (JValue.jstr s).pyStr = s := rfl

/-- UTF-8 encoding of one character, the byte sequence Python encodes before
percent-encoding a query-string value. -/
def utf8Bytes (c : Char) : List Nat :=
  let n := c.toNat
  if n < 0x80 then [n]
  else if n < 0x800 then [0xC0 + n / 0x40, 0x80 + n % 0x40]
  else if n < 0x10000 then
    [0xE0 + n / 0x1000, 0x80 + (n / 0x40) % 0x40, 0x80 + n % 0x40]
  else
    [0xF0 + n / 0x40000, 0x80 + (n / 0x1000) % 0x40, 0x80 + (n / 0x40) % 0x40, 0x80 + n % 0x40]

/-- Uppercase hexadecimal digit for a value below 16. -/
def hexDigit (n : Nat) : Char :=
  if n < 10 then Char.ofNat (48 + n) else Char.ofNat (65 + n - 10)

/-- Bytes urllib.parse.quote_plus leaves unescaped: ASCII alphanumerics and
the characters `_`, `.`, `-`, `~`. -/
def quoteSafeByte (n : Nat) : Bool :=
  (48 ≤ n ∧ n ≤ 57) ∨ (65 ≤ n ∧ n ≤ 90) ∨ (97 ≤ n ∧ n ≤ 122) ∨
    n = 95 ∨ n = 46 ∨ n = 45 ∨ n = 126

/-- quote_plus on one byte: space becomes `+`, safe bytes stay literal,
anything else becomes `%XX` with uppercase hex. -/
def quotePlusByte (n : Nat) : String :=
  if n = 32 then "+"
  else if quoteSafeByte n then String.singleton (Char.ofNat n)
  else "%" ++ String.singleton (hexDigit (n / 16)) ++ String.singleton (hexDigit (n % 16))

/-- urllib.parse.quote_plus of a string: percent-encoding of its UTF-8
bytes, with space mapped to `+`. -/
def quote_plus (s : String) : String :=
  String.join ((s.data.flatMap utf8Bytes).map quotePlusByte)

/-- urllib.parse.urlencode of the one-entry dict `dict(p=path)`, as built by
`get_file` and `get_dir`. -/
def urlencode_p (path : String) : String :=
  "p=" ++ quote_plus path

/-- Python str.startswith, evaluated on the character sequence. -/
def startswith (s pre : String) : Bool :=
  pre.data.isPrefixOf s.data

/-- Python str.endswith, evaluated on the character sequence. -/
def endswith (s suf : String) : Bool :=
  suf.data.isSuffixOf s.data

/-- Python str.split with a one-character separator, on character lists:
empty input yields one empty group, and every separator occurrence starts a
new group. -/
def splitOnChar (sep : Char) : List Char → List (List Char)
  | [] => [[]]
  | c :: cs =>
    match splitOnChar sep cs with
    | [] => [[]]
    | g :: gs => if c = sep then [] :: g :: gs else (c :: g) :: gs

/-- Python `share_link.split('/')`. -/
def py_split_slash (s : String) : List String :=
  (splitOnChar (Char.ofNat 47) s.data).map String.mk

/-- posixpath.join of two path components, as used by `upload_file`: an
absolute second component wins; otherwise the components are joined with a
single `/` separator. -/
def posixpath_join (a b : String) : String :=
  if startswith b "/" then b
  else if a = "" ∨ endswith a "/" then a ++ b
  else a ++ "/" ++ b

/-- The `fileobj` argument of `upload_file`: a Python str, a raw bytes
sequence, or a stream-like object (such as io.BytesIO) holding bytes. -/
inductive FileObj where
  | str (s : String) : FileObj
  | bytes (bs : List Nat) : FileObj
  | stream (bs : List Nat) : FileObj
deriving DecidableEq

/-- Whether a value is a Python str, as tested by `isinstance(fileobj, str)`. -/
def FileObj.isStr : FileObj → Bool
  | .str _ => true
  | _ => false

/-- Python 3 io.BytesIO constructor: wraps a bytes-like initial buffer into
an in-memory stream; a str initial buffer raises TypeError (bytes-like
object required), and an existing stream is not a bytes-like buffer either. -/
def bytesIOCtor : FileObj → Except PyError FileObj
  | .bytes bs => .ok (.stream bs)
  | _ => .error (.typeError)

/-- The multipart form payload posted by `upload_file`: the `file` entry
(filename and content), the fixed `parent_dir`, and the `relative_path`. -/
structure UploadFiles where
  file : String × FileObj
  parent_dir : String
  relative_path : String
deriving DecidableEq

/-- One HTTP request issued through the transport collaborator. -/
inductive Request where
  | get (url : String) : Request
  | post (url : String) (files : UploadFiles) : Request
  | delete (url : String) : Request
deriving DecidableEq

/-- A transport response, as the out-of-scope collaborator exposes it: the
response headers, the raw body text, and the JSON-decoding accessor (whose
failure, a decoding error, propagates unchanged). -/
structure Response where
  headers : List (String × String)
  text : String
  json : Except PyError JValue

/-- The transport collaborator, abstracted as an oracle from each request to
its outcome: a response, or a transport-level error such as the not-found
error for a 404 status. -/
structure Client where
  onGet : String → Except PyError Response
  onPost : String → UploadFiles → Except PyError Response
  onDelete : String → Except PyError Response

/-- Outcome of running one embedded Python operation: the returned value or
raised exception, paired with the list of HTTP requests issued, in order. -/
abbrev PyRun (α : Type) := Except PyError α × List Request

/-- A normally returned value, with no request issued. -/
def PyRun.pure (a : α) : PyRun α := (.ok a, [])

/-- A raised exception, with no request issued. -/
def PyRun.raise (e : PyError) : PyRun α := (.error e, [])

/-- Sequencing of embedded Python statements: a raised exception aborts the
rest, and request traces concatenate. -/
def PyRun.bind (x : PyRun α) (f : α → PyRun β) : PyRun β :=
  match x with
  | (.error e, t) => (.error e, t)
  | (.ok a, t) =>
    match f a with
    | (r, t2) => (r, t ++ t2)

/-- A request-free computation (pure Python evaluation that may raise). -/
def PyRun.ofExcept (r : Except PyError α) : PyRun α := (r, [])

/-- Python `assert cond`: raises AssertionError when the condition fails. -/
def pyAssert (b : Bool) : PyRun Unit :=
  if b then PyRun.pure () else PyRun.raise .assertionError

/-- One `client.get(url)` call: records the request and yields the
response or the propagated transport error. -/
def doGet (client : Client) (url : String) : PyRun Response :=
  match client.onGet url with
  | .error e => (.error e, [.get url])
  | .ok r => (.ok r, [.get url])

/-- One `client.post(url, files=files)` call. -/
def doPost (client : Client) (url : String) (files : UploadFiles) : PyRun Response :=
  match client.onPost url files with
  | .error e => (.error e, [.post url files])
  | .ok r => (.ok r, [.post url files])

/-- One `client.delete(url)` call. -/
def doDelete (client : Client) (url : String) : PyRun Response :=
  match client.onDelete url with
  | .error e => (.error e, [.delete url])
  | .ok r => (.ok r, [.delete url])

/-- Python dict subscript on the response headers, `resp.headers['oid']`. -/
def headersItem (hs : List (String × String)) (k : String) : Except PyError String :=
  match List.lookup k hs with
  | some v => .ok v
  | none => .error (.keyError k)

/-- Modelled from the spec: the `raise_does_not_exist` decorator
(seafileapi.utils, not under src/) — "On a 'not found' response status,
fails with a NotFound error" carrying the decorator's fixed message; every
other outcome of the wrapped operation passes through unchanged. -/
def raise_does_not_exist (msg : String) (r : PyRun α) : PyRun α :=
  match r with
  | (.error (.clientHttpError 404), t) => (.error (.doesNotExist msg), t)
  | other => other

/-- The characters before the last double quote of the list, if any. -/
def beforeLastQuote : List Char → Option (List Char)
  | [] => none
  | c :: cs =>
    match beforeLastQuote cs with
    | some r => some (c :: r)
    | none => if c = Char.ofNat 34 then some [] else none

/-- Python `re.match(r'"(.*)"', text).group(1)`: the match requires the text
to begin with a double quote; the greedy group then extends to the last
double quote reachable without crossing a newline (`.` does not match a
newline).  `none` models a failed match, on which the subsequent `.group(1)`
raises AttributeError. -/
def re_match_quoted (text : String) : Option String :=
  match text.data with
  | [] => none
  | c :: rest =>
    if c = Char.ofNat 34 then
      (beforeLastQuote (rest.takeWhile (fun ch => ch ≠ Char.ofNat 10))).map String.mk
    else none

/-- A seafile library handle (class `Repo`), holding the five attributes
stored by `__init__`.  The stored transport collaborator (`self.client`) is
supplied to each operation at call time in this embedding; the attributes
hold whatever decoded-JSON values the constructor received. -/
structure Repo where
  id : JValue
  name : JValue
  encrypted : JValue
  owner : JValue
  perm : JValue

/-- Repo.from_json: reads the required fields `id`, `name`, `encrypted`,
`permission`, `owner` from the decoded JSON record, in the source's access
order, and constructs the Repo.  A missing field raises KeyError; the
construction is pure (no request, no other side effect). -/
def Repo.from_json (repo_json : JValue) : Except PyError Repo :=
  match repo_json.getItem "id" with
  | .error e => .error e
  | .ok repo_id =>
    match repo_json.getItem "name" with
    | .error e => .error e
    | .ok repo_name =>
      match repo_json.getItem "encrypted" with
      | .error e => .error e
      | .ok encrypted =>
        match repo_json.getItem "permission" with
        | .error e => .error e
        | .ok perm =>
          match repo_json.getItem "owner" with
          | .error e => .error e
          | .ok owner =>
            .ok { id := repo_id, name := repo_name, encrypted := encrypted,
                  owner := owner, perm := perm }

/-- Repo.is_readonly: `'w' not in self.perm`; membership test on a non-str
permission value raises TypeError. -/
def Repo.is_readonly (self : Repo) : Except PyError Bool :=
  match self.perm with
  | .jstr p => .ok (! p.contains (Char.ofNat 119))
  | _ => .error (.typeError)

/-- Modelled from the spec: a `SeafFile` handle (seafileapi.files, not under
src/) — a File handle "bound to this repository, the given path, the
returned id, and size", recorded as the constructor's arguments. -/
structure SeafFile where
  repo : Repo
  path : String
  id : JValue
  size : JValue

/-- Modelled from the spec: a `SeafDir` handle (seafileapi.files, not under
src/) — a Directory handle holding the repository, the path, the directory
id read from the `oid` response header, and the child entries loaded from
the JSON body by `load_entries`. -/
structure SeafDir where
  repo : Repo
  path : String
  id : String
  entries : JValue

/-- The value returned by `get_element_by_share_link`: a directory or a
file handle. -/
inductive SeafElement where
  | dir (d : SeafDir) : SeafElement
  | file (f : SeafFile) : SeafElement

/-- Repo.get_file: asserts the path is slash-rooted, issues the
file-detail lookup with the URL-encoded `p` query, and builds a SeafFile
from the body's `id` and `size` fields; wrapped by
`raise_does_not_exist('The requested file does not exist')`. -/
def Repo.get_file (self : Repo) (client : Client) (path : String) : PyRun SeafFile :=
  raise_does_not_exist "The requested file does not exist"
    (PyRun.bind (pyAssert (startswith path "/")) (fun _ =>
      let url := "/api2/repos/" ++ self.id.pyStr ++ "/file/detail/"
      let query := "?" ++ urlencode_p path
      PyRun.bind (doGet client (url ++ query)) (fun resp =>
        PyRun.bind (PyRun.ofExcept resp.json) (fun file_json =>
          PyRun.bind (PyRun.ofExcept (file_json.getItem "id")) (fun fid =>
            PyRun.bind (PyRun.ofExcept (file_json.getItem "size")) (fun fsize =>
              PyRun.pure { repo := self, path := path, id := fid, size := fsize }))))))

/-- Repo.get_dir: asserts the path is slash-rooted, issues the directory
listing (omitting the query for the root path), reads the directory id from
the `oid` response header and the entries from the JSON body; wrapped by
`raise_does_not_exist('The requested dir does not exist')`. -/
def Repo.get_dir (self : Repo) (client : Client) (path : String) : PyRun SeafDir :=
  raise_does_not_exist "The requested dir does not exist"
    (PyRun.bind (pyAssert (startswith path "/")) (fun _ =>
      let url := "/api2/repos/" ++ self.id.pyStr ++ "/dir/"
      let query := if path ≠ "/" then "?" ++ urlencode_p path else ""
      PyRun.bind (doGet client (url ++ query)) (fun resp =>
        PyRun.bind (PyRun.ofExcept (headersItem resp.headers "oid")) (fun dir_id =>
          PyRun.bind (PyRun.ofExcept resp.json) (fun dir_json =>
            PyRun.pure { repo := self, path := path, id := dir_id, entries := dir_json })))))

/-- Repo._get_upload_link: fetches the upload-link endpoint and unquotes the
textual body via `re.match(r'"(.*)"', resp.text).group(1)`; a failed match
raises AttributeError on the `.group` access. -/
def Repo._get_upload_link (self : Repo) (client : Client) : PyRun String :=
  let url := "/api2/repos/" ++ self.id.pyStr ++ "/upload-link/"
  PyRun.bind (doGet client url) (fun resp =>
    match re_match_quoted resp.text with
    | some link => PyRun.pure link
    | none => PyRun.raise (.attributeError "group"))

/-- Repo.upload_file: wraps a str fileobj through io.BytesIO (a Python 3
TypeError, since a str is not bytes-like), obtains the upload link, posts
the multipart payload with `parent_dir='/'` and the target `relative_path`,
and re-resolves the uploaded file with `get_file` on
`posixpath.join('/' + filepath, json_response[0]['name'])`. -/
def Repo.upload_file (self : Repo) (client : Client) (fileobj : FileObj)
    (filename filepath : String) : PyRun SeafFile :=
  PyRun.bind (PyRun.ofExcept (if fileobj.isStr then bytesIOCtor fileobj else .ok fileobj))
    (fun fo =>
      PyRun.bind (self._get_upload_link client) (fun link =>
        let upload_url := link ++ "?ret-json=1"
        let files : UploadFiles :=
          { file := (filename, fo), parent_dir := "/", relative_path := filepath }
        PyRun.bind (doPost client upload_url files) (fun resp =>
          PyRun.bind (PyRun.ofExcept resp.json) (fun json_response =>
            PyRun.bind (PyRun.ofExcept (json_response.getIdx 0)) (fun first =>
              PyRun.bind (PyRun.ofExcept (first.getItem "name")) (fun namev =>
                match namev with
                | .jstr nm => self.get_file client (posixpath_join ("/" ++ filepath) nm)
                | _ => PyRun.raise (.typeError)))))))

/-- Repo.get_share_link_details: fetches the share-link endpoint for the
token and returns the decoded JSON body. -/
def Repo.get_share_link_details (self : Repo) (client : Client) (token : String) :
    PyRun JValue :=
  let url := "/api/v2.1/share-links/" ++ token ++ "/"
  PyRun.bind (doGet client url) (fun resp => PyRun.ofExcept resp.json)

/-- Repo.get_element_by_share_link: validates the link with the external
`validators.url` predicate (abstracted as the `isUrl` oracle) and the
five-segment minimum of its `/`-split, extracts the token at index 4,
fetches the share-link details, and dispatches on the truthiness of
`is_dir` to `get_dir` or `get_file` with the resolved `path`.  A resolved
path that is not a str hits `path.startswith` inside the callee, raising
AttributeError, surfaced here at the dispatch boundary of this String-typed
embedding.  A failed validation raises `ValueError('Invalid share link')`
with no request issued. -/
def Repo.get_element_by_share_link (self : Repo) (client : Client)
    (isUrl : String → Bool) (share_link : String) : PyRun SeafElement :=
  let splitted_link := py_split_slash share_link
  if isUrl share_link ∧ 5 ≤ splitted_link.length then
    let token := splitted_link.getD 4 ""
    PyRun.bind (self.get_share_link_details client token) (fun share_link_details =>
      PyRun.bind (PyRun.ofExcept (share_link_details.dictGet "path")) (fun pathv =>
        PyRun.bind (PyRun.ofExcept (share_link_details.dictGet "is_dir")) (fun is_dir =>
          match pathv with
          | .jstr p =>
            if is_dir.truthy then
              PyRun.bind (self.get_dir client p) (fun d => PyRun.pure (.dir d))
            else
              PyRun.bind (self.get_file client p) (fun f => PyRun.pure (.file f))
          | _ => PyRun.raise (.attributeError "startswith"))))
  else
    PyRun.raise (.valueError "Invalid share link")

/-- Repo.delete: one DELETE against the repository resource; the URL is the
str concatenation `'/api2/repos/' + self.id`, a TypeError when the stored id
is not a str. -/
def Repo.delete (self : Repo) (client : Client) : PyRun Unit :=
  match self.id with
  | .jstr rid => PyRun.bind (doDelete client ("/api2/repos/" ++ rid)) (fun _ => PyRun.pure ())
  | _ => PyRun.raise (.typeError)

/-- Repo.list_history: body is `pass`, so the call returns None with no
request, no exception, and no attribute change. -/
def Repo.list_history (self : Repo) (client : Client) : PyRun (Option (List JValue)) :=
  PyRun.pure none

/-- Repo.update: body is `pass`. -/
def Repo.update (self : Repo) (client : Client) (name : Option String) :
    PyRun (Option Unit) :=
  PyRun.pure none

/-- Repo.get_settings: body is `pass`. -/
def Repo.get_settings (self : Repo) (client : Client) : PyRun (Option JValue) :=
  PyRun.pure none

/-- Repo.restore: body is `pass`. -/
def Repo.restore (self : Repo) (client : Client) (commit_id : String) :
    PyRun (Option Unit) :=
  PyRun.pure none

/-- The method names the `Repo` class defines in src/seafileapi/repo.py, in
source order; Python attribute lookup on a Repo instance resolves exactly
these (plus the instance attributes set in `__init__`). -/
def Repo.classMethodNames : List String :=
  ["from_json", "is_readonly", "get_file", "get_dir", "upload_file",
   "_get_upload_link", "get_share_link_details", "get_element_by_share_link",
   "delete", "list_history", "update", "get_settings", "restore"]

/-- A historical commit handle (class `RepoRevision`), holding the parent
repository and the commit id (the stored transport collaborator is supplied
at call time in this embedding). -/
structure RepoRevision where
  repo : Repo
  commit_id : String

/-- RepoRevision.restore: evaluates `self.repo.revert(self.commit_id)`.
The attribute lookup of `revert` on the Repo instance consults the class
method table; `Repo.classMethodNames` contains no `revert`, so the lookup
raises AttributeError before any call is made (the guarded branch is dead
code kept only to exhibit the lookup). -/
def RepoRevision.restore (self : RepoRevision) (client : Client) : PyRun (Option Unit) :=
  if Repo.classMethodNames.contains "revert" then
    Repo.restore self.repo client self.commit_id
  else
    PyRun.raise (.attributeError "revert")

/-! Rewriting lemmas for the execution pairs, and concrete fixtures used by
the evaluation theorems and witnesses. -/

@[simp] theorem PyRun.pure_def (a : α) : PyRun.pure a = ((.ok a : Except PyError α), []) := rfl

@[simp] theorem PyRun.raise_def (e : PyError) :
    (PyRun.raise e : PyRun α) = ((.error e : Except PyError α), []) := rfl

@[simp] theorem PyRun.ofExcept_ok (a : α) :
    PyRun.ofExcept (.ok a) = ((.ok a : Except PyError α), []) := rfl

@[simp] theorem PyRun.ofExcept_error (e : PyError) :
    PyRun.ofExcept (.error e : Except PyError α) = (.error e, []) := rfl

@[simp] theorem PyRun.bind_ok (a : α) (t : List Request) (f : α → PyRun β) :
    PyRun.bind (.ok a, t) f = ((f a).1, t ++ (f a).2) := by
  unfold PyRun.bind
  rcases h : f a with ⟨r, t2⟩
  simp [h]

@[simp] theorem PyRun.bind_error (e : PyError) (t : List Request) (f : α → PyRun β) :
    PyRun.bind (.error e, t) f = (.error e, t) := rfl

theorem PyRun.bind_pure_comp (x : PyRun α) (g : α → β) :
    PyRun.bind x (fun a => PyRun.pure (g a)) = (x.1.map g, x.2) := by
  rcases x with ⟨r, t⟩
  cases r <;> simp [PyRun.bind, PyRun.pure, Except.map]

theorem PyRun.bind_ok_comp (x : PyRun α) (g : α → β) :
    PyRun.bind x (fun a => ((.ok (g a) : Except PyError β), [])) = (x.1.map g, x.2) := by
  rcases x with ⟨r, t⟩
  cases r <;> simp [PyRun.bind, Except.map]

theorem raise_does_not_exist_trace (msg : String) (r : PyRun α) :
    (raise_does_not_exist msg r).2 = r.2 := by
  unfold raise_does_not_exist
  split <;> simp_all

@[simp] theorem pyAssert_true : pyAssert true = ((.ok () : Except PyError Unit), []) := rfl

@[simp] theorem pyAssert_false : pyAssert false = ((.error .assertionError : Except PyError Unit), []) := rfl

theorem doGet_ok (client : Client) (url : String) (r : Response)
    (h : client.onGet url = .ok r) : doGet client url = (.ok r, [.get url]) := by
  unfold doGet; rw [h]

theorem doGet_error (client : Client) (url : String) (e : PyError)
    (h : client.onGet url = .error e) : doGet client url = (.error e, [.get url]) := by
  unfold doGet; rw [h]

theorem doPost_ok (client : Client) (url : String) (files : UploadFiles) (r : Response)
    (h : client.onPost url files = .ok r) :
    doPost client url files = (.ok r, [.post url files]) := by
  unfold doPost; rw [h]

theorem str_append_empty (s : String) : s ++ "" = s := by
  cases s with
  | mk data =>
    show String.mk (data ++ "".data) = String.mk data
    simp

/-- The characters before the last quote of `cs ++ [quote]`, when `cs`
itself holds no quote, are exactly `cs`. -/
theorem beforeLastQuote_append (cs : List Char)
    (h : Char.ofNat 34 ∉ cs) :
    beforeLastQuote (cs ++ [Char.ofNat 34]) = some cs := by
  induction cs with
  | nil => simp [beforeLastQuote]
  | cons c cs ih =>
    have hc : c ≠ Char.ofNat 34 := fun hc => h (hc ▸ List.mem_cons_self c cs)
    have ht : Char.ofNat 34 ∉ cs := fun hm => h (List.mem_cons_of_mem c hm)
    simp [beforeLastQuote, ih ht]

/-- The regex extraction of `_get_upload_link` on a well-quoted body: the
group is exactly the quoted content when it holds no quote and no newline. -/
theorem re_match_quoted_quoted (link : String)
    (hq : Char.ofNat 34 ∉ link.data) (hn : Char.ofNat 10 ∉ link.data) :
    re_match_quoted ("\"" ++ link ++ "\"") = some link := by
  have hquote : ("\"" : String).data = [Char.ofNat 34] := by decide
  have hdata : ("\"" ++ link ++ "\"").data = Char.ofNat 34 :: (link.data ++ [Char.ofNat 34]) := by
    rw [String.data_append, String.data_append, hquote]
    simp
  unfold re_match_quoted
  rw [hdata]
  have htake : (link.data ++ [Char.ofNat 34]).takeWhile (fun ch => ch ≠ Char.ofNat 10)
      = link.data ++ [Char.ofNat 34] := by
    refine List.takeWhile_eq_self_iff.mpr ?_
    intro x hx
    rcases List.mem_append.mp hx with hx | hx
    · exact decide_eq_true (fun hx10 => hn (hx10 ▸ hx))
    · simp only [List.mem_singleton] at hx
      subst hx
      decide
  simp only [htake, beforeLastQuote_append link.data hq, Option.map_some]
  cases link
  rfl

/-- A concrete repository fixture. -/
def sampleRepo : Repo :=
  { id := .jstr "r1", name := .jstr "docs", encrypted := .jbool false,
    owner := .jstr "ada", perm := .jstr "rw" }

/-- Upload-link response fixture: the body is the quoted destination URL. -/
def uploadLinkResp : Response :=
  { headers := [], text := "\"http://up\"", json := .ok .jnull }

/-- File-detail response fixture. -/
def fileDetailResp : Response :=
  { headers := [], text := "", json := .ok (.jobj [("id", .jstr "f1"), ("size", .jint 3)]) }

/-- Directory-listing response fixture, with the `oid` header. -/
def dirListResp : Response :=
  { headers := [("oid", "d1")], text := "", json := .ok (.jarr []) }

/-- Share-link detail response fixture: a directory at `/x`. -/
def shareDetailResp : Response :=
  { headers := [], text := "",
    json := .ok (.jobj [("path", .jstr "/x"), ("is_dir", .jbool true)]) }

/-- Upload response fixture: the service echoes the new file name. -/
def uploadEchoResp : Response :=
  { headers := [], text := "", json := .ok (.jarr [.jobj [("name", .jstr "a.txt")]]) }

/-- A concrete transport oracle serving the fixtures above. -/
def sampleClient : Client :=
  { onGet := fun url =>
      if url = "/api2/repos/r1/upload-link/" then .ok uploadLinkResp
      else if url = "/api/v2.1/share-links/t/" then .ok shareDetailResp
      else if url = "/api2/repos/r1/dir/" then .ok dirListResp
      else if url = "/api2/repos/r1/dir/?p=%2Fx" then .ok dirListResp
      else if url = "/api2/repos/r1/dir/?p=%2Fa%2Fb" then .ok dirListResp
      else .ok fileDetailResp,
    onPost := fun _ _ => .ok uploadEchoResp,
    onDelete := fun _ => .ok dirListResp }

/-- A transport oracle whose every answer is the not-found transport error. -/
def notFoundClient : Client :=
  { onGet := fun _ => .error (.clientHttpError 404),
    onPost := fun _ _ => .error (.clientHttpError 404),
    onDelete := fun _ => .error (.clientHttpError 404) }

/-- C10: each of the declared-but-unimplemented operations `list_history()`,
`update(name)`, `get_settings()` and `Repo.restore(commit_id)` returns None,
issues no HTTP request and raises no error, for every repository, transport
and argument; in particular `Repo.restore` silently does nothing.  (The
embedding is state-free: a Repo record is never rebuilt, so the attributes
are unchanged by construction.) -/
theorem c10_unimplemented_noops (repo : Repo) (client : Client)
    (name : Option String) (commit_id : String) :
    Repo.list_history repo client = (.ok none, []) ∧
    Repo.update repo client name = (.ok none, []) ∧
    Repo.get_settings repo client = (.ok none, []) ∧
    Repo.restore repo client commit_id = (.ok none, []) :=
  ⟨rfl, rfl, rfl, rfl⟩

/-- C4 (evaluation at the failing input): `RepoRevision.restore` does not
delegate to the parent repository's `restore`: it evaluates
`self.repo.revert(self.commit_id)`, and the `Repo` class defines no method
named `revert` (while it does define `restore`), so the call raises
AttributeError with no request issued. -/
theorem c4_restore_revert_attribute_error :
    RepoRevision.restore { repo := sampleRepo, commit_id := "c0ffee" } sampleClient
      = (.error (.attributeError "revert"), []) ∧
    Repo.classMethodNames.contains "revert" = false ∧
    Repo.classMethodNames.contains "restore" = true :=
  ⟨rfl, by decide, by decide⟩

/-- C3 (evaluation at the failing input): `upload_file` does not wrap a raw
byte sequence into an in-memory stream.  A Python str fileobj is the only
case the `isinstance(fileobj, str)` test wraps, and `io.BytesIO(str)` raises
TypeError under Python 3 before any request; a bytes fileobj is posted
unwrapped (the multipart payload carries the raw `.bytes` value, not a
`.stream`). -/
theorem c3_upload_file_raw_not_wrapped :
    Repo.upload_file sampleRepo sampleClient (.str "hello") "a.txt" "docs"
      = (.error .typeError, []) ∧
    (Repo.upload_file sampleRepo sampleClient (.bytes [104, 105]) "a.txt" "docs").2
      = [.get "/api2/repos/r1/upload-link/",
         .post "http://up?ret-json=1"
           { file := ("a.txt", .bytes [104, 105]), parent_dir := "/", relative_path := "docs" },
         .get "/api2/repos/r1/file/detail/?p=%2Fdocs%2Fa.txt"] :=
  ⟨rfl, by decide⟩

/-- C1: for every path that does not start with `/`, both `get_file` and
`get_dir` fail before any network call with the assertion failure of the
`assert path.startswith('/')` precondition, which the error taxonomy
classifies as `InvalidArgument`. -/
theorem c1_relative_path_rejected (repo : Repo) (client : Client) (path : String)
    (h : startswith path "/" = false) :
    Repo.get_file repo client path = (.error .assertionError, []) ∧
    Repo.get_dir repo client path = (.error .assertionError, []) ∧
    PyError.isInvalidArgument .assertionError = true := by
  refine ⟨?_, ?_, rfl⟩ <;>
    simp [Repo.get_file, Repo.get_dir, pyAssert, h, raise_does_not_exist]

/-- C1 witness at path `"abc"`. -/
theorem c1_witness :
    startswith "abc" "/" = false ∧
    (Repo.get_file sampleRepo sampleClient "abc" = (.error .assertionError, []) ∧
     Repo.get_dir sampleRepo sampleClient "abc" = (.error .assertionError, []) ∧
     PyError.isInvalidArgument .assertionError = true) :=
  ⟨by decide, c1_relative_path_rejected sampleRepo sampleClient "abc" (by decide)⟩

/-- C5: for every input that the external URL validator rejects, or whose
`/`-split has fewer than five segments, `get_element_by_share_link` raises
`ValueError('Invalid share link')` with no request issued; the error
taxonomy classifies this as `InvalidArgument`. -/
theorem c5_invalid_share_link_rejected (repo : Repo) (client : Client)
    (isUrl : String → Bool) (share_link : String)
    (h : isUrl share_link = false ∨ (py_split_slash share_link).length < 5) :
    Repo.get_element_by_share_link repo client isUrl share_link
      = (.error (.valueError "Invalid share link"), []) ∧
    PyError.isInvalidArgument (.valueError "Invalid share link") = true := by
  have hcond : ¬ (isUrl share_link = true ∧ 5 ≤ (py_split_slash share_link).length) := by
    rcases h with h | h
    · rintro ⟨h1, -⟩
      rw [h] at h1
      exact Bool.false_ne_true h1
    · rintro ⟨-, h2⟩
      omega
  refine ⟨?_, rfl⟩
  simp only [Repo.get_element_by_share_link]
  rw [if_neg hcond]
  rfl

/-- C5 witness at the non-URL input `"nope"`. -/
theorem c5_witness :
    ((fun _ : String => false) "nope" = false ∨ (py_split_slash "nope").length < 5) ∧
    (Repo.get_element_by_share_link sampleRepo sampleClient (fun _ => false) "nope"
        = (.error (.valueError "Invalid share link"), []) ∧
     PyError.isInvalidArgument (.valueError "Invalid share link") = true) :=
  ⟨Or.inl rfl,
   c5_invalid_share_link_rejected sampleRepo sampleClient (fun _ => false) "nope" (Or.inl rfl)⟩

/-- Trace of a request-free continuation after a pure evaluation step. -/
theorem PyRun.bind_ofExcept_trace (x : Except PyError α) (f : α → PyRun β)
    (h : ∀ a, (f a).2 = []) : (PyRun.bind (PyRun.ofExcept x) f).2 = [] := by
  cases x <;> simp [PyRun.ofExcept, PyRun.bind, h]

/-- A GET followed by a request-free continuation issues exactly that GET,
whatever the transport answers. -/
theorem bind_doGet_trace (client : Client) (url : String) (g : Response → PyRun β)
    (h : ∀ r, (g r).2 = []) : (PyRun.bind (doGet client url) g).2 = [.get url] := by
  rcases hg : client.onGet url with e | r
  · simp [doGet, hg]
  · simp [doGet, hg, h]

/-- C2: `Repo.from_json` fails exactly when one of the five required fields
`id`, `name`, `encrypted`, `permission`, `owner` is absent — the failure is
the KeyError of the first missing field in access order, classified
`MalformedResponse` by the error taxonomy — and on any JSON object carrying
all five fields it returns (purely, with no request issued) a Repository
whose five attributes are exactly the corresponding JSON field values. -/
theorem c2_from_json_roundtrip (fs : List (String × JValue)) :
    match Repo.from_json (.jobj fs) with
    | .error e =>
        e.isMalformedResponse = true ∧
        (["id", "name", "encrypted", "permission", "owner"].all
            (fun k => (List.lookup k fs).isSome)) = false ∧
        ∃ k, k ∈ ["id", "name", "encrypted", "permission", "owner"] ∧
          e = .keyError k ∧ List.lookup k fs = none
    | .ok r =>
        some r.id = List.lookup "id" fs ∧
        some r.name = List.lookup "name" fs ∧
        some r.encrypted = List.lookup "encrypted" fs ∧
        some r.perm = List.lookup "permission" fs ∧
        some r.owner = List.lookup "owner" fs := by
  simp only [Repo.from_json, JValue.getItem]
  rcases h1 : List.lookup "id" fs with _ | v1
  · exact ⟨rfl, by simp [h1], "id", by simp, rfl, h1⟩
  rcases h2 : List.lookup "name" fs with _ | v2
  · exact ⟨rfl, by simp [h2], "name", by simp, rfl, h2⟩
  rcases h3 : List.lookup "encrypted" fs with _ | v3
  · exact ⟨rfl, by simp [h3], "encrypted", by simp, rfl, h3⟩
  rcases h4 : List.lookup "permission" fs with _ | v4
  · exact ⟨rfl, by simp [h4], "permission", by simp, rfl, h4⟩
  rcases h5 : List.lookup "owner" fs with _ | v5
  · exact ⟨rfl, by simp [h5], "owner", by simp, rfl, h5⟩
  exact ⟨rfl, rfl, rfl, rfl, rfl⟩

/-- C9: `get_dir('/')` issues its listing request with no query string on
`/api2/repos/{id}/dir/`; every non-root slash-rooted path appends `?`
followed by the URL-encoded `p` query; and the encoding of `/a/b` is
exactly `p=%2Fa%2Fb`. -/
theorem c9_get_dir_query (repo : Repo) (client : Client) (rid : String)
    (hid : repo.id = .jstr rid) :
    (Repo.get_dir repo client "/").2 = [.get ("/api2/repos/" ++ rid ++ "/dir/")] ∧
    (∀ path : String, startswith path "/" = true → path ≠ "/" →
        (Repo.get_dir repo client path).2
          = [.get (("/api2/repos/" ++ rid ++ "/dir/") ++ ("?" ++ urlencode_p path))]) ∧
    urlencode_p "/a/b" = "p=%2Fa%2Fb" := by
  have htail : ∀ (self : Repo) (path : String) (r : Response),
      (PyRun.bind (PyRun.ofExcept (headersItem r.headers "oid")) (fun dir_id =>
        PyRun.bind (PyRun.ofExcept r.json) (fun dir_json =>
          PyRun.pure { repo := self, path := path, id := dir_id,
                       entries := dir_json : SeafDir }))).2 = [] := by
    intro self path r
    refine PyRun.bind_ofExcept_trace _ _ (fun a => ?_)
    exact PyRun.bind_ofExcept_trace _ _ (fun b => rfl)
  refine ⟨?_, ?_, by decide⟩
  · have hs : startswith "/" "/" = true := by decide
    simp only [Repo.get_dir, hid, JValue.pyStr_jstr, hs, pyAssert_true, PyRun.bind_ok,
      raise_does_not_exist_trace]
    rw [if_neg (fun h => h rfl), str_append_empty]
    simp only [List.nil_append]
    exact bind_doGet_trace client _ _ (fun r => htail repo "/" r)
  · intro path hp hroot
    simp only [Repo.get_dir, hid, JValue.pyStr_jstr, hp, pyAssert_true, PyRun.bind_ok,
      raise_does_not_exist_trace]
    rw [if_pos hroot]
    simp only [List.nil_append]
    exact bind_doGet_trace client _ _ (fun r => htail repo path r)

/-- C9 witness at repository id `"r1"` and path `"/a/b"`. -/
theorem c9_witness :
    sampleRepo.id = .jstr "r1" ∧
    ((Repo.get_dir sampleRepo sampleClient "/").2 = [.get ("/api2/repos/" ++ "r1" ++ "/dir/")] ∧
     (∀ path : String, startswith path "/" = true → path ≠ "/" →
        (Repo.get_dir sampleRepo sampleClient path).2
          = [.get (("/api2/repos/" ++ "r1" ++ "/dir/") ++ ("?" ++ urlencode_p path))]) ∧
     urlencode_p "/a/b" = "p=%2Fa%2Fb") :=
  ⟨rfl, c9_get_dir_query sampleRepo sampleClient "r1" rfl⟩

/-- C6: whenever the transport answers the metadata lookup of a slash-rooted
`get_file` with the not-found error, the call fails with the NotFound error
whose message is exactly "The requested file does not exist", and a
not-found answer on `get_dir`'s listing fails with exactly "The requested
dir does not exist". -/
theorem c6_not_found_messages (repo : Repo) (client : Client) (rid path : String)
    (hid : repo.id = .jstr rid)
    (hp : startswith path "/" = true)
    (hf : client.onGet (("/api2/repos/" ++ rid ++ "/file/detail/") ++ ("?" ++ urlencode_p path))
        = .error (.clientHttpError 404))
    (hd : client.onGet (("/api2/repos/" ++ rid ++ "/dir/")
          ++ (if path ≠ "/" then "?" ++ urlencode_p path else ""))
        = .error (.clientHttpError 404)) :
    (Repo.get_file repo client path).1
        = .error (.doesNotExist "The requested file does not exist") ∧
    (Repo.get_dir repo client path).1
        = .error (.doesNotExist "The requested dir does not exist") ∧
    PyError.isNotFound (.doesNotExist "The requested file does not exist") = true ∧
    PyError.isNotFound (.doesNotExist "The requested dir does not exist") = true := by
  refine ⟨?_, ?_, rfl, rfl⟩
  · simp only [Repo.get_file, hid, JValue.pyStr_jstr, hp, pyAssert_true, PyRun.bind_ok]
    simp [doGet, hf, raise_does_not_exist]
  · have hd2 := hd
    simp only [ne_eq, ite_not] at hd2
    simp only [Repo.get_dir, hid, JValue.pyStr_jstr, hp, pyAssert_true, PyRun.bind_ok]
    simp [doGet, hd2, raise_does_not_exist]

/-- C6 witness at repository id `"r1"`, path `"/f"`, against the transport
that reports not-found on every request. -/
theorem c6_witness :
    sampleRepo.id = .jstr "r1" ∧
    startswith "/f" "/" = true ∧
    notFoundClient.onGet (("/api2/repos/" ++ "r1" ++ "/file/detail/") ++ ("?" ++ urlencode_p "/f"))
      = .error (.clientHttpError 404) ∧
    notFoundClient.onGet (("/api2/repos/" ++ "r1" ++ "/dir/")
        ++ (if ("/f" : String) ≠ "/" then "?" ++ urlencode_p "/f" else ""))
      = .error (.clientHttpError 404) ∧
    ((Repo.get_file sampleRepo notFoundClient "/f").1
        = .error (.doesNotExist "The requested file does not exist") ∧
     (Repo.get_dir sampleRepo notFoundClient "/f").1
        = .error (.doesNotExist "The requested dir does not exist") ∧
     PyError.isNotFound (.doesNotExist "The requested file does not exist") = true ∧
     PyError.isNotFound (.doesNotExist "The requested dir does not exist") = true) :=
  ⟨rfl, by decide, rfl, rfl,
   c6_not_found_messages sampleRepo notFoundClient "r1" "/f" rfl (by decide) rfl rfl⟩

/-- C8: on a share link of the form `https://host/d/<token>/` (so its
`/`-split is exactly six segments with the token at index 4) that the URL
validator accepts, and whose share-link details resolve to
`{path: "/x", is_dir: true}`, `get_element_by_share_link` first fetches the
token's details and then returns exactly the result of `get_dir("/x")` on
the same transport, as a directory element. -/
theorem c8_share_link_resolves_dir (repo : Repo) (client : Client)
    (isUrl : String → Bool) (share_link host token : String) (resp : Response)
    (hurl : isUrl share_link = true)
    (hsplit : py_split_slash share_link = ["https:", "", host, "d", token, ""])
    (hresp : client.onGet ("/api/v2.1/share-links/" ++ token ++ "/") = .ok resp)
    (hjson : resp.json = .ok (.jobj [("path", .jstr "/x"), ("is_dir", .jbool true)])) :
    (Repo.get_element_by_share_link repo client isUrl share_link).1
        = (Repo.get_dir repo client "/x").1.map SeafElement.dir ∧
    (Repo.get_element_by_share_link repo client isUrl share_link).2
        = .get ("/api/v2.1/share-links/" ++ token ++ "/")
          :: (Repo.get_dir repo client "/x").2 := by
  have hcond : isUrl share_link = true ∧ 5 ≤ (py_split_slash share_link).length := by
    rw [hsplit]
    exact ⟨hurl, by simp⟩
  have hpath : JValue.dictGet (.jobj [("path", .jstr "/x"), ("is_dir", .jbool true)]) "path"
      = .ok (.jstr "/x") := rfl
  have hisdir : JValue.dictGet (.jobj [("path", .jstr "/x"), ("is_dir", .jbool true)]) "is_dir"
      = .ok (.jbool true) := rfl
  have hrun : Repo.get_element_by_share_link repo client isUrl share_link
      = ((Repo.get_dir repo client "/x").1.map SeafElement.dir,
         .get ("/api/v2.1/share-links/" ++ token ++ "/")
           :: (Repo.get_dir repo client "/x").2) := by
    simp only [Repo.get_element_by_share_link, Repo.get_share_link_details]
    rw [if_pos hcond, hsplit]
    simp only [List.getD, List.get?, Option.getD_some]
    simp only [doGet, hresp]
    simp only [PyRun.bind_ok, PyRun.ofExcept_ok, hjson, hpath, hisdir]
    simp [JValue.truthy, PyRun.bind_ok_comp]
  exact ⟨by rw [hrun], by rw [hrun]⟩

/-- C8 witness at the share link `"https://h/d/t/"` against the sample
transport, whose share-link details resolve to the directory `/x`. -/
theorem c8_witness :
    ((fun _ : String => true) "https://h/d/t/" = true) ∧
    py_split_slash "https://h/d/t/" = ["https:", "", "h", "d", "t", ""] ∧
    sampleClient.onGet ("/api/v2.1/share-links/" ++ "t" ++ "/") = .ok shareDetailResp ∧
    shareDetailResp.json = .ok (.jobj [("path", .jstr "/x"), ("is_dir", .jbool true)]) ∧
    ((Repo.get_element_by_share_link sampleRepo sampleClient (fun _ => true) "https://h/d/t/").1
        = (Repo.get_dir sampleRepo sampleClient "/x").1.map SeafElement.dir ∧
     (Repo.get_element_by_share_link sampleRepo sampleClient (fun _ => true) "https://h/d/t/").2
        = .get ("/api/v2.1/share-links/" ++ "t" ++ "/")
          :: (Repo.get_dir sampleRepo sampleClient "/x").2) :=
  ⟨rfl, by decide, rfl, rfl,
   c8_share_link_resolves_dir sampleRepo sampleClient (fun _ => true) "https://h/d/t/"
     "h" "t" shareDetailResp rfl (by decide) rfl rfl⟩

/-- C7: for every stream-or-bytes file object, uploading with filename
`a.txt` and filepath `docs` against a transport whose upload-link body is a
well-quoted URL and whose upload response echoes `[{"name": "a.txt"}]`
returns exactly the result of `get_file("/docs/a.txt")` on the same
transport: the two upload requests are followed by the very `get_file`
re-resolution on the path composed from `filepath` and the echoed name. -/
theorem c7_upload_then_get_file (repo : Repo) (client : Client) (rid link : String)
    (fo : FileObj) (resp1 resp2 : Response)
    (hid : repo.id = .jstr rid)
    (hfo : fo.isStr = false)
    (hget : client.onGet ("/api2/repos/" ++ rid ++ "/upload-link/") = .ok resp1)
    (htext : resp1.text = "\"" ++ link ++ "\"")
    (hlq : Char.ofNat 34 ∉ link.data)
    (hln : Char.ofNat 10 ∉ link.data)
    (hpost : client.onPost (link ++ "?ret-json=1")
        { file := ("a.txt", fo), parent_dir := "/", relative_path := "docs" } = .ok resp2)
    (hjson : resp2.json = .ok (.jarr [.jobj [("name", .jstr "a.txt")]])) :
    (Repo.upload_file repo client fo "a.txt" "docs").1
        = (Repo.get_file repo client "/docs/a.txt").1 ∧
    (Repo.upload_file repo client fo "a.txt" "docs").2
        = .get ("/api2/repos/" ++ rid ++ "/upload-link/")
          :: .post (link ++ "?ret-json=1")
               { file := ("a.txt", fo), parent_dir := "/", relative_path := "docs" }
          :: (Repo.get_file repo client "/docs/a.txt").2 := by
  have hidx : JValue.getIdx (.jarr [.jobj [("name", .jstr "a.txt")]]) 0
      = .ok (.jobj [("name", .jstr "a.txt")]) := rfl
  have hname : JValue.getItem (.jobj [("name", .jstr "a.txt")]) "name"
      = .ok (.jstr "a.txt") := rfl
  have hpj : posixpath_join ("/" ++ "docs") "a.txt" = "/docs/a.txt" := by decide
  have hrun : Repo.upload_file repo client fo "a.txt" "docs"
      = ((Repo.get_file repo client "/docs/a.txt").1,
         .get ("/api2/repos/" ++ rid ++ "/upload-link/")
           :: .post (link ++ "?ret-json=1")
                { file := ("a.txt", fo), parent_dir := "/", relative_path := "docs" }
           :: (Repo.get_file repo client "/docs/a.txt").2) := by
    simp only [Repo.upload_file, Repo._get_upload_link, hid, JValue.pyStr_jstr, hfo,
      Bool.false_eq_true, if_false, PyRun.ofExcept_ok, PyRun.bind_ok, doGet, hget]
    rw [htext, re_match_quoted_quoted link hlq hln]
    simp only [PyRun.pure_def, PyRun.bind_ok, PyRun.ofExcept_ok, doPost, hpost, hjson, hidx,
      hname, List.nil_append, List.append_nil, List.cons_append]
    rw [hpj]
  exact ⟨by rw [hrun], by rw [hrun]⟩

/-- C7 witness: a concrete stream file object uploaded through the sample
transport, whose upload-link body is `"http://up"` quoted and whose upload
response echoes the file name. -/
theorem c7_witness :
    sampleRepo.id = .jstr "r1" ∧
    (FileObj.stream [104]).isStr = false ∧
    sampleClient.onGet ("/api2/repos/" ++ "r1" ++ "/upload-link/") = .ok uploadLinkResp ∧
    uploadLinkResp.text = "\"" ++ "http://up" ++ "\"" ∧
    Char.ofNat 34 ∉ ("http://up" : String).data ∧
    Char.ofNat 10 ∉ ("http://up" : String).data ∧
    sampleClient.onPost ("http://up" ++ "?ret-json=1")
      { file := ("a.txt", .stream [104]), parent_dir := "/", relative_path := "docs" }
      = .ok uploadEchoResp ∧
    uploadEchoResp.json = .ok (.jarr [.jobj [("name", .jstr "a.txt")]]) ∧
    ((Repo.upload_file sampleRepo sampleClient (.stream [104]) "a.txt" "docs").1
        = (Repo.get_file sampleRepo sampleClient "/docs/a.txt").1 ∧
     (Repo.upload_file sampleRepo sampleClient (.stream [104]) "a.txt" "docs").2
        = .get ("/api2/repos/" ++ "r1" ++ "/upload-link/")
          :: .post ("http://up" ++ "?ret-json=1")
               { file := ("a.txt", .stream [104]), parent_dir := "/", relative_path := "docs" }
          :: (Repo.get_file sampleRepo sampleClient "/docs/a.txt").2) :=
  ⟨rfl, rfl, rfl, rfl, by decide, by decide, rfl, rfl,
   c7_upload_then_get_file sampleRepo sampleClient "r1" "http://up" (.stream [104])
     uploadLinkResp uploadEchoResp rfl rfl rfl rfl (by decide) (by decide) rfl rfl⟩
